import Mathlib

/-!
Verification development for the TheHive/Cortex listing tool
(`list_reponders_analyzers.py`).  The program is embedded shallowly:
each routine becomes a pure Lean function from an HTTP oracle to the
list of printed lines, the list of requested endpoints, and the
returned record sequence.
-/

namespace ListRespondersAnalyzers

/-- A flat JSON record as returned by the analyzer / responder
endpoints.  Optional fields model missing JSON keys (`dict.get`). -/
structure Record where
  id : Option String
  name : Option String
  cortexId : Option String
  dataTypeList : List String
  description : Option String
deriving DecidableEq, Repr

/-- Python `str.lower()` restricted to its ASCII behaviour: lower-case
every character of the string. -/
def lowerStr (s : String) : String := ⟨s.data.map Char.toLower⟩

/-- `analyzer.get('cortexId', 'Unknown')` -/
def keyOf (r : Record) : String := r.cortexId.getD "Unknown"

/-- One step of the Python dict grouping: append `r` to the group of
key `k`, creating the group at the end when the key is new (Python
dict insertion order). -/
def insertGrouped (gs : List (String × List Record)) (k : String) (r : Record) :
    List (String × List Record) :=
  match gs with
  | [] => [(k, [r])]
  | (k0, l) :: rest =>
    if k0 = k then (k0, l ++ [r]) :: rest else (k0, l) :: insertGrouped rest k r

/-- The grouping loop of `list_all_analyzers` (lines 44-50) and
`display_entity_responders` (lines 140-146). -/
def groupByCortexId (rs : List Record) : List (String × List Record) :=
  rs.foldl (fun gs r => insertGrouped gs (keyOf r) r) []

/-- Dictionary lookup in the association-list model of the grouping. -/
def lookupGroup (k : String) (gs : List (String × List Record)) : List Record :=
  match gs with
  | [] => []
  | (k0, l) :: rest => if k0 = k then l else lookupGroup k rest

/-- Total number of records across the groups. -/
def sizeSum (gs : List (String × List Record)) : Nat :=
  (gs.map (fun p => p.2.length)).sum

/-- The sort key of the Python `sort(key=lambda x: x.get('name', '').lower())`. -/
def sortKey (r : Record) : String := lowerStr (r.name.getD "")

/-- Comparison used by the within-group sort: at most by lowered name,
code-point lexicographic (Python string comparison). -/
def nameRel (a b : Record) : Prop := (sortKey a).data ≤ (sortKey b).data

instance : DecidableRel nameRel := fun a b =>
  inferInstanceAs (Decidable ((sortKey a).data ≤ (sortKey b).data))

instance : IsTotal Record nameRel := ⟨fun a b => le_total (sortKey a).data (sortKey b).data⟩

instance : IsTrans Record nameRel := ⟨fun _ _ _ => le_trans⟩

/-- The within-group sort by case-insensitive name: a stable sort by
`sortKey`, as Python `list.sort` is. -/
def sortGroup (l : List Record) : List Record := l.insertionSort nameRel

/-- Deduplication keeping the first occurrence of each key, in input
order; the reference order for printed group headers. -/
def addKey (ks : List String) (k : String) : List String :=
  if k ∈ ks then ks else ks ++ [k]

/-- The deduplicated sequence of group keys of `rs`, in order of first
appearance. -/
def firstKeys (rs : List Record) : List String :=
  rs.foldl (fun ks r => addKey ks (keyOf r)) []

instance : DecidableEq (Except String (List Record)) := fun a b =>
  match a, b with
  | .error x, .error y =>
    if h : x = y then isTrue (h ▸ rfl) else isFalse (fun hc => h (Except.error.inj hc))
  | .ok x, .ok y =>
    if h : x = y then isTrue (h ▸ rfl) else isFalse (fun hc => h (Except.ok.inj hc))
  | .error _, .ok _ => isFalse (fun hc => Except.noConfusion hc)
  | .ok _, .error _ => isFalse (fun hc => Except.noConfusion hc)

/-- An HTTP response: status code, body text, and the outcome of
`response.json()` (`Except.error` models a raised parse exception). -/
structure HttpResponse where
  status : Nat
  text : String
  json : Except String (List Record)
deriving DecidableEq, Repr

instance : DecidableEq (Except String HttpResponse) := fun a b =>
  match a, b with
  | .error x, .error y =>
    if h : x = y then isTrue (h ▸ rfl) else isFalse (fun hc => h (Except.error.inj hc))
  | .ok x, .ok y =>
    if h : x = y then isTrue (h ▸ rfl) else isFalse (fun hc => h (Except.ok.inj hc))
  | .error _, .ok _ => isFalse (fun hc => Except.noConfusion hc)
  | .ok _, .error _ => isFalse (fun hc => Except.noConfusion hc)

/-- The network oracle: maps a URL to a response, or to the message of
a raised transport exception. -/
abbrev Net := String → Except String HttpResponse

/-- Observable behaviour of one routine call: printed lines, endpoints
requested (in order), and the returned record sequence. -/
structure CallResult where
  output : List String
  requested : List String
  result : List Record
deriving DecidableEq, Repr

/-- `if api_url.endswith('/'): api_url = api_url[:-1]` — stated on the
character sequence: when the last character is a slash, drop it. -/
def stripSlash (api_url : String) : String :=
  if api_url.data.getLast? = some '/' then ⟨api_url.data.dropLast⟩ else api_url

/-- The two printed lines for one analyzer record (lines 60-62). -/
def analyzerLines (r : Record) : List String :=
  ["- " ++ r.name.getD "Unknown" ++ " (ID: " ++ r.id.getD "N/A" ++ ")",
   "  Supported data types: " ++ String.intercalate ", " r.dataTypeList]

/-- Header plus sorted per-record lines for one analyzer group. -/
def analyzersGroupLines (p : String × List Record) : List String :=
  ("\n== Cortex Instance: " ++ p.1 ++ " ==") :: (sortGroup p.2).flatMap analyzerLines

/-- Embedding of `list_all_analyzers` (lines 17-66): one GET to the
analyzer endpoint; on 200, group, sort and print; on non-200 print
status and body; on an exception print its message.  The Python
function returns `None`, so `result` is always `[]`. -/
def list_all_analyzers (net : Net) (api_url : String) : CallResult :=
  let url := stripSlash api_url ++ "/connector/cortex/analyzer"
  match net url with
  | .error e =>
    { output := ["Error connecting to TheHive: " ++ e], requested := [url], result := [] }
  | .ok resp =>
    if resp.status = 200 then
      match resp.json with
      | .error e =>
        { output := ["Error connecting to TheHive: " ++ e], requested := [url], result := [] }
      | .ok analyzers =>
        { output := ("\n=== " ++ toString analyzers.length ++ " AVAILABLE CORTEX ANALYZERS ===")
            :: (groupByCortexId analyzers).flatMap analyzersGroupLines,
          requested := [url], result := [] }
    else
      { output := ["Error getting analyzers: " ++ toString resp.status ++ " - " ++ resp.text],
        requested := [url], result := [] }

/-- The literal list of valid entity types (line 92). -/
def valid_entity_types : List String := ["case", "alert", "observable", "case_artifact"]

/-- The ordered candidate endpoint paths (lines 98-109). -/
def responderEndpoints (entity_type entity_id : String) : List String :=
  if lowerStr entity_type = "observable" ∨ lowerStr entity_type = "case_artifact" then
    ["/connector/cortex/responder/case_artifact/" ++ entity_id,
     "/v1/connector/cortex/responder/case_artifact/" ++ entity_id,
     "/connector/cortex/responder/observable/" ++ entity_id,
     "/v1/connector/cortex/responder/observable/" ++ entity_id]
  else
    ["/connector/cortex/responder/" ++ lowerStr entity_type ++ "/" ++ entity_id,
     "/v1/connector/cortex/responder/" ++ lowerStr entity_type ++ "/" ++ entity_id]

/-- The final message when every candidate failed (line 129). -/
def errLine (entity_type entity_id : String) : String :=
  "Error: Could not get responders for " ++ entity_type ++ " " ++ entity_id ++
    " from any endpoint"

/-- The candidate loop of `list_available_responders` (lines 111-130):
first 200 whose body parses returns immediately; a non-200 response or
an exception (transport, or JSON parse on a 200) moves to the next
candidate; exhaustion prints the final error and returns `[]`. -/
def tryEndpoints (net : Net) (base entity_type entity_id : String) :
    List String → CallResult
  | [] => { output := [errLine entity_type entity_id], requested := [], result := [] }
  | e :: rest =>
    let url := base ++ e
    let tryLine := "Trying endpoint: " ++ e
    match net url with
    | .error msg =>
      let r := tryEndpoints net base entity_type entity_id rest
      { output := tryLine :: ("Error trying endpoint " ++ e ++ ": " ++ msg) :: r.output,
        requested := e :: r.requested, result := r.result }
    | .ok resp =>
      if resp.status = 200 then
        match resp.json with
        | .ok responders =>
          { output := [tryLine,
              "Successfully retrieved " ++ toString responders.length ++
                " responders from endpoint: " ++ e],
            requested := [e], result := responders }
        | .error msg =>
          let r := tryEndpoints net base entity_type entity_id rest
          { output := tryLine :: ("Error trying endpoint " ++ e ++ ": " ++ msg) :: r.output,
            requested := e :: r.requested, result := r.result }
      else
        let r := tryEndpoints net base entity_type entity_id rest
        { output := tryLine :: ("Endpoint " ++ e ++ " returned: " ++ toString resp.status
            ++ " - " ++ resp.text) :: r.output,
          requested := e :: r.requested, result := r.result }

/-- Embedding of `list_available_responders` (lines 68-130): validates
the entity type case-insensitively, then walks the candidate endpoint
list. -/
def list_available_responders (net : Net) (api_url entity_type entity_id : String) :
    CallResult :=
  if lowerStr entity_type ∈ valid_entity_types then
    tryEndpoints net (stripSlash api_url) entity_type entity_id
      (responderEndpoints entity_type entity_id)
  else
    { output := ["Error: Entity type must be one of " ++
        String.intercalate ", " valid_entity_types],
      requested := [], result := [] }

/-- The printed lines for one responder record (lines 155-158): the
description line appears only when present and non-empty (Python
truthiness). -/
def responderLines (r : Record) : List String :=
  ("- " ++ r.name.getD "Unknown" ++ " (ID: " ++ r.id.getD "N/A" ++ ")") ::
    (match r.description with
     | some d => if d = "" then [] else ["  Description: " ++ d]
     | none => [])

/-- Header plus sorted per-record lines for one responder group. -/
def respondersGroupLines (p : String × List Record) : List String :=
  ("\nCortex Instance: " ++ p.1) :: (sortGroup p.2).flatMap responderLines

/-- Embedding of `display_entity_responders` (lines 132-158). -/
def display_entity_responders (responders : List Record) : List String :=
  if responders = [] then ["No responders available for this entity."]
  else
    ("\n=== " ++ toString responders.length ++ " AVAILABLE RESPONDERS ===")
      :: (groupByCortexId responders).flatMap respondersGroupLines

/-- The four usage lines printed when fewer than two argv entries are
given (lines 164-167). -/
def usageLines : List String :=
  ["Usage:",
   "  List all analyzers: python cortex_list.py analyzers",
   "  List entity responders: python cortex_list.py responders <entity_type> <entity_id>",
   "  Example: python cortex_list.py responders case_artifact 12345"]

/-- The three lines of the fallback usage message (lines 179-181). -/
def invalidLines : List String :=
  ["Invalid command or missing parameters.",
   "Use \x27analyzers\x27 to list all analyzers",
   "Use \x27responders <entity_type> <entity_id>\x27 to list responders for a specific entity"]

/-- Embedding of `main` (lines 160-181): `argv` is the full `sys.argv`
including the program name. -/
def mainFn (net : Net) (api_url : String) (argv : List String) : CallResult :=
  if argv.length < 2 then { output := usageLines, requested := [], result := [] }
  else
    let action := lowerStr (argv.getD 1 "")
    if action = "analyzers" then list_all_analyzers net api_url
    else if action = "responders" ∧ 3 < argv.length then
      let entity_type := argv.getD 2 ""
      let entity_id := argv.getD 3 ""
      let r := list_available_responders net api_url entity_type entity_id
      { output := r.output ++ display_entity_responders r.result,
        requested := r.requested, result := r.result }
    else { output := invalidLines, requested := [], result := [] }

/-- Did this request outcome have HTTP status 200?  (A transport
exception has no status.) -/
def isStatus200 : Except String HttpResponse → Bool
  | .ok resp => resp.status == 200
  | .error _ => false

/-! ### Concrete fixtures used to instantiate the theorems -/

/-- The analyzer named `Zeus` from the specification example. -/
def rZeus : Record := ⟨some "a1", some "Zeus", some "c1", ["ip"], none⟩

/-- The analyzer named `anubis` from the specification example. -/
def rAnubis : Record := ⟨some "a2", some "anubis", some "c1", ["domain", "ip"], none⟩

/-- The responder from the specification example. -/
def rBlockIP : Record := ⟨some "r1", some "Block IP", some "c1", [], none⟩

/-- A record named `Alpha`. -/
def rAlpha : Record := ⟨some "i1", some "Alpha", some "c1", [], none⟩

/-- A record with no `name` key and no `cortexId` key. -/
def rNoName : Record := ⟨some "i2", none, none, [], none⟩

/-- `rNoName` with its name replaced by the literal `Unknown`. -/
def rUnknownName : Record := ⟨some "i2", some "Unknown", none, [], none⟩

/-- A network that always answers 200 with the two example analyzers. -/
def analyzersNet : Net := fun _ => .ok ⟨200, "", .ok [rZeus, rAnubis]⟩

/-- A network on which every request raises a connection error. -/
def downNet : Net := fun _ => .error "connection refused"

/-- A network that answers 404 everywhere except on the third
responder candidate for observable `42`, which answers 200 with one
responder (the specification example: candidate 1 returns 404,
candidate 3 returns 200). -/
def fallbackNet : Net := fun url =>
  if url = "http://localhost:9000/api/connector/cortex/responder/observable/42" then
    .ok ⟨200, "", .ok [rBlockIP]⟩
  else
    .ok ⟨404, "Not Found", .error "not json"⟩

/-! ### Grouping lemmas -/

theorem lookupGroup_insertGrouped (gs : List (String × List Record)) (kn k : String)
    (r : Record) :
    lookupGroup k (insertGrouped gs kn r) =
      if kn = k then lookupGroup k gs ++ [r] else lookupGroup k gs := by
  induction gs with
  | nil => by_cases h : kn = k <;> simp [insertGrouped, lookupGroup, h]
  | cons p rest ih =>
    obtain ⟨k1, l⟩ := p
    by_cases h1 : k1 = kn
    · subst h1
      by_cases h2 : k1 = k <;> simp [insertGrouped, lookupGroup, h2]
    · by_cases h2 : k1 = k
      · subst h2
        have hnk : ¬ kn = k1 := fun h => h1 h.symm
        simp [insertGrouped, lookupGroup, h1, hnk]
      · simp [insertGrouped, lookupGroup, h1, h2, ih]

theorem lookupGroup_foldl (rs : List Record) :
    ∀ (gs : List (String × List Record)) (k : String),
      lookupGroup k (rs.foldl (fun gs r => insertGrouped gs (keyOf r) r) gs) =
        lookupGroup k gs ++ rs.filter (fun r => keyOf r == k) := by
  induction rs with
  | nil => simp
  | cons r rest ih =>
    intro gs k
    simp only [List.foldl_cons, List.filter_cons]
    rw [ih, lookupGroup_insertGrouped]
    by_cases h : keyOf r = k <;> simp [h]

theorem lookupGroup_groupByCortexId (rs : List Record) (k : String) :
    lookupGroup k (groupByCortexId rs) = rs.filter (fun r => keyOf r == k) := by
  simpa [lookupGroup] using lookupGroup_foldl rs [] k

theorem sizeSum_insertGrouped (gs : List (String × List Record)) (k : String) (r : Record) :
    sizeSum (insertGrouped gs k r) = sizeSum gs + 1 := by
  induction gs with
  | nil => simp [insertGrouped, sizeSum]
  | cons p rest ih =>
    obtain ⟨k1, l⟩ := p
    by_cases h : k1 = k <;> simp [insertGrouped, sizeSum, h] <;>
      simp [sizeSum] at ih <;> omega

theorem sizeSum_foldl (rs : List Record) :
    ∀ gs : List (String × List Record),
      sizeSum (rs.foldl (fun gs r => insertGrouped gs (keyOf r) r) gs) =
        sizeSum gs + rs.length := by
  induction rs with
  | nil => simp
  | cons r rest ih =>
    intro gs
    simp only [List.foldl_cons, List.length_cons]
    rw [ih, sizeSum_insertGrouped]
    omega

theorem sizeSum_groupByCortexId (rs : List Record) :
    sizeSum (groupByCortexId rs) = rs.length := by
  simpa [sizeSum] using sizeSum_foldl rs []

theorem map_fst_insertGrouped (gs : List (String × List Record)) (k : String) (r : Record) :
    (insertGrouped gs k r).map Prod.fst = addKey (gs.map Prod.fst) k := by
  induction gs with
  | nil => simp [insertGrouped, addKey]
  | cons p rest ih =>
    obtain ⟨k1, l⟩ := p
    by_cases h1 : k1 = k
    · subst h1
      simp [insertGrouped, addKey]
    · have hne : ¬ k = k1 := fun h => h1 h.symm
      by_cases h2 : k ∈ rest.map Prod.fst
      · simp [insertGrouped, addKey, h1, ih, h2, hne]
      · simp [insertGrouped, addKey, h1, ih, h2, hne]

theorem map_fst_foldl (rs : List Record) :
    ∀ gs : List (String × List Record),
      (rs.foldl (fun gs r => insertGrouped gs (keyOf r) r) gs).map Prod.fst =
        rs.foldl (fun ks r => addKey ks (keyOf r)) (gs.map Prod.fst) := by
  induction rs with
  | nil => simp
  | cons r rest ih =>
    intro gs
    simp only [List.foldl_cons]
    rw [ih, map_fst_insertGrouped]

theorem map_fst_groupByCortexId (rs : List Record) :
    (groupByCortexId rs).map Prod.fst = firstKeys rs := by
  simpa using map_fst_foldl rs []

theorem addKey_nodup {ks : List String} (h : ks.Nodup) (k : String) :
    (addKey ks k).Nodup := by
  unfold addKey
  split_ifs with hm
  · exact h
  · simp [List.nodup_append, h, hm]

/-! ### Candidate-loop lemmas -/

theorem tryEndpoints_cons_fail (net : Net) (base ty id e : String) (rest : List String)
    (h : isStatus200 (net (base ++ e)) = false) :
    (tryEndpoints net base ty id (e :: rest)).result =
        (tryEndpoints net base ty id rest).result ∧
      (tryEndpoints net base ty id (e :: rest)).requested =
        e :: (tryEndpoints net base ty id rest).requested ∧
      ∃ m, (tryEndpoints net base ty id (e :: rest)).output =
        ("Trying endpoint: " ++ e) :: m :: (tryEndpoints net base ty id rest).output := by
  cases hnet : net (base ++ e) with
  | error msg => simp [tryEndpoints, hnet]
  | ok resp =>
    have hs : ¬ resp.status = 200 := by simpa [isStatus200, hnet] using h
    simp [tryEndpoints, hnet, hs]

theorem tryEndpoints_cons_succ (net : Net) (base ty id e : String) (rest : List String)
    (resp : HttpResponse) (v : List Record)
    (hnet : net (base ++ e) = .ok resp) (h200 : resp.status = 200)
    (hj : resp.json = .ok v) :
    tryEndpoints net base ty id (e :: rest) =
      { output := ["Trying endpoint: " ++ e,
          "Successfully retrieved " ++ toString v.length ++ " responders from endpoint: " ++ e],
        requested := [e], result := v } := by
  simp [tryEndpoints, hnet, h200, hj]

theorem tryEndpoints_first (net : Net) (base ty id : String) :
    ∀ (eps : List String) (i : Nat), i < eps.length → ∀ (resp : HttpResponse)
      (v : List Record),
      (∀ j, j < i → isStatus200 (net (base ++ eps.getD j "")) = false) →
      net (base ++ eps.getD i "") = .ok resp → resp.status = 200 → resp.json = .ok v →
      (tryEndpoints net base ty id eps).result = v ∧
        (tryEndpoints net base ty id eps).requested = eps.take (i + 1) := by
  intro eps
  induction eps with
  | nil => intro i hi; simp at hi
  | cons e rest ih =>
    intro i hi resp v hfirst hnet h200 hj
    cases i with
    | zero =>
      have heq := tryEndpoints_cons_succ net base ty id e rest resp v
        (by simpa using hnet) h200 hj
      simp [heq]
    | succ n =>
      have h0 : isStatus200 (net (base ++ e)) = false := by
        simpa using hfirst 0 (Nat.succ_pos n)
      obtain ⟨hres, hreq, -⟩ := tryEndpoints_cons_fail net base ty id e rest h0
      have hi2 : n < rest.length := by simpa using Nat.lt_of_succ_lt_succ hi
      have hfirst2 : ∀ j, j < n →
          isStatus200 (net (base ++ rest.getD j "")) = false := by
        intro j hj
        simpa using hfirst (j + 1) (Nat.succ_lt_succ hj)
      have hmain := ih n hi2 resp v hfirst2 (by simpa using hnet) h200 hj
      refine ⟨hres.trans hmain.1, ?_⟩
      rw [hreq, hmain.2]
      simp

theorem tryEndpoints_all_fail (net : Net) (base ty id : String) :
    ∀ eps : List String,
      (∀ e ∈ eps, isStatus200 (net (base ++ e)) = false) →
      (tryEndpoints net base ty id eps).result = [] ∧
        (tryEndpoints net base ty id eps).requested = eps ∧
        ∃ ls, (tryEndpoints net base ty id eps).output = ls ++ [errLine ty id] := by
  intro eps
  induction eps with
  | nil => exact fun _ => ⟨rfl, rfl, [], rfl⟩
  | cons e rest ih =>
    intro h
    obtain ⟨hres, hreq, m, hout⟩ :=
      tryEndpoints_cons_fail net base ty id e rest (h e (by simp))
    obtain ⟨ir, iq, ls, io⟩ := ih (fun x hx => h x (by simp [hx]))
    refine ⟨hres.trans ir, by rw [hreq, iq], ("Trying endpoint: " ++ e) :: m :: ls, ?_⟩
    rw [hout, io]
    simp

/-! ### Distinctness of the candidate endpoints -/

theorem append_cancel_right_str (a b c : String) (h : a ++ c = b ++ c) : a = b := by
  have hd : a.data ++ c.data = b.data ++ c.data := by
    simpa [String.data_append] using congrArg String.data h
  have h2 := List.append_cancel_right hd
  cases a; cases b; simp_all

theorem ne_append_of_ne (a b c : String) (h : a ≠ b) : a ++ c ≠ b ++ c :=
  fun hc => h (append_cancel_right_str a b c hc)

theorem responderEndpoints_nodup (ty id : String) : (responderEndpoints ty id).Nodup := by
  by_cases h : lowerStr ty = "observable" ∨ lowerStr ty = "case_artifact"
  · have n12 := ne_append_of_ne "/connector/cortex/responder/case_artifact/"
      "/v1/connector/cortex/responder/case_artifact/" id (by decide)
    have n13 := ne_append_of_ne "/connector/cortex/responder/case_artifact/"
      "/connector/cortex/responder/observable/" id (by decide)
    have n14 := ne_append_of_ne "/connector/cortex/responder/case_artifact/"
      "/v1/connector/cortex/responder/observable/" id (by decide)
    have n23 := ne_append_of_ne "/v1/connector/cortex/responder/case_artifact/"
      "/connector/cortex/responder/observable/" id (by decide)
    have n24 := ne_append_of_ne "/v1/connector/cortex/responder/case_artifact/"
      "/v1/connector/cortex/responder/observable/" id (by decide)
    have n34 := ne_append_of_ne "/connector/cortex/responder/observable/"
      "/v1/connector/cortex/responder/observable/" id (by decide)
    simp only [responderEndpoints, if_pos h]
    simp [List.nodup_cons, n12, n13, n14, n23, n24, n34]
  · have key : ("/connector/cortex/responder/" : String) ++ lowerStr ty ++ "/" ++ id ≠
        "/v1/connector/cortex/responder/" ++ lowerStr ty ++ "/" ++ id :=
      ne_append_of_ne _ _ _ (ne_append_of_ne _ _ _
        (ne_append_of_ne "/connector/cortex/responder/"
          "/v1/connector/cortex/responder/" (lowerStr ty) (by decide)))
    simp only [responderEndpoints, if_neg h]
    simp [List.nodup_cons, key]

theorem firstKeys_nodup (rs : List Record) : (firstKeys rs).Nodup := by
  have main : ∀ (l : List Record) (ks : List String), ks.Nodup →
      (l.foldl (fun ks r => addKey ks (keyOf r)) ks).Nodup := by
    intro l
    induction l with
    | nil => intro ks h; simpa using h
    | cons r rest ih =>
      intro ks h
      simpa using ih (addKey ks (keyOf r)) (addKey_nodup h (keyOf r))
  simpa [firstKeys] using main rs [] (by simp)

/-! ### Claim theorems -/

/-- C1: for every call to `list_available_responders` with entity type
`observable` or `case_artifact` (case-insensitive), the candidate
endpoint paths are exactly, in order,
`/connector/cortex/responder/case_artifact/{id}`, its `v1`-prefixed
variant, `/connector/cortex/responder/observable/{id}`, and its
`v1`-prefixed variant; when candidate `i` is the first whose response
status is 200 and its body parses as the array `v`, the function
returns `v` and has requested exactly the first `i + 1` candidates —
no request is issued to any later candidate. -/
theorem C1_responder_candidate_order (net : Net) (api_url entity_type entity_id : String)
    (hty : lowerStr entity_type = "observable" ∨ lowerStr entity_type = "case_artifact")
    (i : Nat) (hi : i < (responderEndpoints entity_type entity_id).length)
    (resp : HttpResponse) (v : List Record)
    (hfirst : ∀ j, j < i → isStatus200 (net (stripSlash api_url ++
      (responderEndpoints entity_type entity_id).getD j "")) = false)
    (hnet : net (stripSlash api_url ++
      (responderEndpoints entity_type entity_id).getD i "") = .ok resp)
    (h200 : resp.status = 200) (hjson : resp.json = .ok v) :
    responderEndpoints entity_type entity_id =
      ["/connector/cortex/responder/case_artifact/" ++ entity_id,
       "/v1/connector/cortex/responder/case_artifact/" ++ entity_id,
       "/connector/cortex/responder/observable/" ++ entity_id,
       "/v1/connector/cortex/responder/observable/" ++ entity_id] ∧
    (list_available_responders net api_url entity_type entity_id).result = v ∧
    (list_available_responders net api_url entity_type entity_id).requested =
      (responderEndpoints entity_type entity_id).take (i + 1) := by
  have hvalid : lowerStr entity_type ∈ valid_entity_types := by
    rcases hty with h | h <;> simp [valid_entity_types, h]
  have heps : responderEndpoints entity_type entity_id =
      ["/connector/cortex/responder/case_artifact/" ++ entity_id,
       "/v1/connector/cortex/responder/case_artifact/" ++ entity_id,
       "/connector/cortex/responder/observable/" ++ entity_id,
       "/v1/connector/cortex/responder/observable/" ++ entity_id] := by
    unfold responderEndpoints
    rw [if_pos hty]
  have hmain := tryEndpoints_first net (stripSlash api_url) entity_type entity_id
    (responderEndpoints entity_type entity_id) i hi resp v hfirst hnet h200 hjson
  refine ⟨heps, ?_, ?_⟩ <;> simp [list_available_responders, hvalid, hmain.1, hmain.2]

/-- Witness for C1: the specification example — candidates 1 and 2
return 404, candidate 3 returns 200 with one responder; the function
returns that one-element sequence and requests only the first three
candidates. -/
theorem C1_witness :
    (list_available_responders fallbackNet "http://localhost:9000/api"
        "observable" "42").result = [rBlockIP] ∧
      (list_available_responders fallbackNet "http://localhost:9000/api"
        "observable" "42").requested =
        ["/connector/cortex/responder/case_artifact/42",
         "/v1/connector/cortex/responder/case_artifact/42",
         "/connector/cortex/responder/observable/42"] := by
  have h := C1_responder_candidate_order fallbackNet "http://localhost:9000/api"
    "observable" "42" (Or.inl (by decide)) 2 (by decide) ⟨200, "", .ok [rBlockIP]⟩ [rBlockIP]
    (by intro j hj; interval_cases j <;> decide) (by decide) rfl rfl
  exact ⟨h.2.1, by rw [h.2.2]; decide⟩

/-- C2: the grouping by `cortexId` is an exact partition of the input:
the group sizes sum to the input length, every input record lies in
exactly one group, and a record with no `cortexId` field lies in the
group with literal key `Unknown`. -/
theorem C2_grouping_partition (rs : List Record) :
    sizeSum (groupByCortexId rs) = rs.length ∧
    (∀ r ∈ rs, ∃! k : String, r ∈ lookupGroup k (groupByCortexId rs)) ∧
    (∀ r ∈ rs, r.cortexId = none → r ∈ lookupGroup "Unknown" (groupByCortexId rs)) := by
  refine ⟨sizeSum_groupByCortexId rs, ?_, ?_⟩
  · intro r hr
    refine ⟨keyOf r, ?_, ?_⟩
    · show r ∈ lookupGroup (keyOf r) (groupByCortexId rs)
      rw [lookupGroup_groupByCortexId]
      simp [List.mem_filter, hr]
    · intro k hk
      simp only [lookupGroup_groupByCortexId, List.mem_filter, beq_iff_eq] at hk
      exact hk.2.symm
  · intro r hr hnone
    have hk : keyOf r = "Unknown" := by simp [keyOf, hnone]
    rw [lookupGroup_groupByCortexId]
    simp [List.mem_filter, hr, hk]

/-- Witness for C2 on a concrete two-record input, one record lacking
its `cortexId`. -/
theorem C2_witness :
    sizeSum (groupByCortexId [rAlpha, rNoName]) = 2 ∧
      rNoName ∈ lookupGroup "Unknown" (groupByCortexId [rAlpha, rNoName]) := by
  have h := C2_grouping_partition [rAlpha, rNoName]
  exact ⟨h.1, h.2.2 rNoName (by decide) rfl⟩

/-- C3 counterexample: in a group holding a record named `Alpha` and a
record with no name, the code places the unnamed record first (its
sort key is the empty string), while a record literally named
`Unknown` would be placed after `Alpha` — so the unnamed record does
not occupy the position the name `Unknown` would occupy. -/
theorem C3_counterexample :
    sortGroup [rAlpha, rNoName] = [rNoName, rAlpha] ∧
      sortGroup [rAlpha, rUnknownName] = [rAlpha, rUnknownName] ∧
      (sortGroup [rAlpha, rNoName]).indexOf rNoName ≠
        (sortGroup [rAlpha, rUnknownName]).indexOf rUnknownName := by
  refine ⟨by decide, by decide, by decide⟩

/-- C3 (amended): the within-group sort orders records by the
case-insensitively lowered name, and a record with a missing `name`
field sorts as if its name were the empty string (its sort key is the
empty string, which precedes or ties every other key) — not the
literal `Unknown`, which is only used when displaying the name. -/
theorem C3_missing_name_sorts_as_empty (rs : List Record) :
    (sortGroup rs).Sorted nameRel ∧
      (∀ r : Record, r.name = none → sortKey r = "") ∧
      (∀ r s : Record, r.name = none → nameRel r s) := by
  refine ⟨List.sorted_insertionSort nameRel rs, fun r h => by simp [sortKey, h, lowerStr], ?_⟩
  intro r s h
  show (sortKey r).data ≤ (sortKey s).data
  have hr : sortKey r = "" := by simp [sortKey, h, lowerStr]
  rw [hr]
  exact List.nil_le

/-- Witness for C3 (amended) at a concrete group. -/
theorem C3_witness :
    (sortGroup [rAlpha, rNoName]).Sorted nameRel ∧ sortKey rNoName = "" :=
  ⟨(C3_missing_name_sorts_as_empty [rAlpha, rNoName]).1,
    (C3_missing_name_sorts_as_empty [rAlpha, rNoName]).2.1 rNoName rfl⟩

/-- C4: every group's records are printed in non-decreasing order of
their lowered name, and on the specification example
`list_all_analyzers` prints the total count 2 and prints `anubis`
before `Zeus` inside group `c1`. -/
theorem C4_group_sorted_and_example (rs : List Record) :
    (∀ p ∈ groupByCortexId rs, (sortGroup p.2).Sorted nameRel) ∧
      (list_all_analyzers analyzersNet "http://localhost:9000/api").output =
        ["\n=== 2 AVAILABLE CORTEX ANALYZERS ===",
         "\n== Cortex Instance: c1 ==",
         "- anubis (ID: a2)",
         "  Supported data types: domain, ip",
         "- Zeus (ID: a1)",
         "  Supported data types: ip"] :=
  ⟨fun p _ => List.sorted_insertionSort nameRel p.2, by decide⟩

/-- Witness for C4 at the concrete group produced by the example. -/
theorem C4_witness :
    (sortGroup (("c1", [rZeus, rAnubis]) : String × List Record).2).Sorted nameRel :=
  (C4_group_sorted_and_example [rZeus, rAnubis]).1 ("c1", [rZeus, rAnubis]) (by decide)

/-- C5: an entity type whose lowercase form is not in
`{case, alert, observable, case_artifact}` yields only the printed
error listing the valid set, an empty result and no HTTP request
(`requested = []`); an entity type whose lowercase form is in the set
passes validation — the function proceeds to the candidate loop —
whatever the original letter case. -/
theorem C5_entity_type_validation (net : Net) (api_url entity_type entity_id : String) :
    (lowerStr entity_type ∉ valid_entity_types →
      list_available_responders net api_url entity_type entity_id =
        { output := ["Error: Entity type must be one of " ++
            String.intercalate ", " valid_entity_types],
          requested := [], result := [] }) ∧
    (lowerStr entity_type ∈ valid_entity_types →
      list_available_responders net api_url entity_type entity_id =
        tryEndpoints net (stripSlash api_url) entity_type entity_id
          (responderEndpoints entity_type entity_id)) := by
  constructor <;> intro h <;> simp [list_available_responders, h]

/-- Witness for C5: `ticket` is rejected with no request made, and the
upper-case `OBSERVABLE` passes validation. -/
theorem C5_witness :
    (list_available_responders downNet "u" "ticket" "1").requested = [] ∧
      list_available_responders downNet "u" "OBSERVABLE" "1" =
        tryEndpoints downNet (stripSlash "u") "OBSERVABLE" "1"
          (responderEndpoints "OBSERVABLE" "1") := by
  have h1 := (C5_entity_type_validation downNet "u" "ticket" "1").1 (by decide)
  have h2 := (C5_entity_type_validation downNet "u" "OBSERVABLE" "1").2 (by decide)
  exact ⟨by rw [h1], h2⟩

/-- C6: with a valid entity type, when every candidate endpoint yields
a non-200 response or a transport exception, every candidate is
requested exactly once in order (the request list is the candidate
list, which has no duplicates), the final could-not-get-responders
message is the last printed line, and the empty sequence is
returned. -/
theorem C6_all_candidates_fail (net : Net) (api_url entity_type entity_id : String)
    (hvalid : lowerStr entity_type ∈ valid_entity_types)
    (hfail : ∀ e ∈ responderEndpoints entity_type entity_id,
      isStatus200 (net (stripSlash api_url ++ e)) = false) :
    (list_available_responders net api_url entity_type entity_id).result = [] ∧
    (list_available_responders net api_url entity_type entity_id).requested =
      responderEndpoints entity_type entity_id ∧
    (responderEndpoints entity_type entity_id).Nodup ∧
    ∃ ls, (list_available_responders net api_url entity_type entity_id).output =
      ls ++ [errLine entity_type entity_id] := by
  have hrun : list_available_responders net api_url entity_type entity_id =
      tryEndpoints net (stripSlash api_url) entity_type entity_id
        (responderEndpoints entity_type entity_id) := by
    simp [list_available_responders, hvalid]
  obtain ⟨h1, h2, ls, h3⟩ := tryEndpoints_all_fail net (stripSlash api_url) entity_type
    entity_id (responderEndpoints entity_type entity_id) hfail
  exact ⟨by rw [hrun]; exact h1, by rw [hrun]; exact h2,
    responderEndpoints_nodup entity_type entity_id, ls, by rw [hrun]; exact h3⟩

/-- Witness for C6: a network that refuses every connection. -/
theorem C6_witness :
    (list_available_responders downNet "http://localhost:9000/api"
        "observable" "42").result = [] ∧
      (list_available_responders downNet "http://localhost:9000/api"
        "observable" "42").requested = responderEndpoints "observable" "42" := by
  have h := C6_all_candidates_fail downNet "http://localhost:9000/api" "observable" "42"
    (by decide) (fun e _ => rfl)
  exact ⟨h.1, h.2.1⟩

/-- C7: `list_all_analyzers` is a total function — no failure reaches
its caller; on a non-200 response it prints the status code with the
response body and returns, and any exception raised by the request or
by JSON parsing is caught and its message printed, the function
completing normally in all three cases. -/
theorem C7_analyzers_error_handling (net : Net) (api_url : String) :
    (∀ resp : HttpResponse,
      net (stripSlash api_url ++ "/connector/cortex/analyzer") = .ok resp →
      resp.status ≠ 200 →
      list_all_analyzers net api_url =
        { output := ["Error getting analyzers: " ++ toString resp.status ++ " - " ++ resp.text],
          requested := [stripSlash api_url ++ "/connector/cortex/analyzer"],
          result := [] }) ∧
    (∀ msg : String,
      net (stripSlash api_url ++ "/connector/cortex/analyzer") = .error msg →
      list_all_analyzers net api_url =
        { output := ["Error connecting to TheHive: " ++ msg],
          requested := [stripSlash api_url ++ "/connector/cortex/analyzer"],
          result := [] }) ∧
    (∀ (resp : HttpResponse) (msg : String),
      net (stripSlash api_url ++ "/connector/cortex/analyzer") = .ok resp →
      resp.status = 200 → resp.json = .error msg →
      list_all_analyzers net api_url =
        { output := ["Error connecting to TheHive: " ++ msg],
          requested := [stripSlash api_url ++ "/connector/cortex/analyzer"],
          result := [] }) := by
  refine ⟨?_, ?_, ?_⟩
  · intro resp hnet hs
    simp [list_all_analyzers, hnet, hs]
  · intro msg hnet
    simp [list_all_analyzers, hnet]
  · intro resp msg hnet hs hj
    simp [list_all_analyzers, hnet, hs, hj]

/-- Witness for C7: a 500 response with body `oops`. -/
theorem C7_witness :
    list_all_analyzers (fun _ => .ok ⟨500, "oops", .error "x"⟩) "u" =
      { output := ["Error getting analyzers: " ++ toString (500 : Nat) ++ " - " ++ "oops"],
        requested := [stripSlash "u" ++ "/connector/cortex/analyzer"],
        result := [] } :=
  (C7_analyzers_error_handling (fun _ => .ok ⟨500, "oops", .error "x"⟩) "u").1
    ⟨500, "oops", .error "x"⟩ rfl (by decide)

/-- C8: given an empty sequence, `display_entity_responders` prints
exactly the no-responders message: no count header, no group lines —
and, the function being a pure formatter over its argument, no HTTP
request is involved. -/
theorem C8_display_empty :
    display_entity_responders [] = ["No responders available for this entity."] := rfl

/-- C9 counterexample: with action `responders` and only one further
positional argument, the program prints a three-line message, not a
two-line one. -/
theorem C9_counterexample :
    (mainFn downNet "u" ["prog", "responders", "observable"]).output.length = 3 ∧
      (mainFn downNet "u" ["prog", "responders", "observable"]).output.length ≠ 2 := by
  exact ⟨by decide, by decide⟩

/-- C9 (amended): when the entry point is invoked with action
`responders` and zero or one further positional argument, or with any
unrecognized action, it prints the three-line invalid-command/usage
message (one invalid-command line followed by the two usage lines) and
returns without issuing any HTTP request. -/
theorem C9_usage_no_http (net : Net) (api_url : String) (argv : List String)
    (h2 : 2 ≤ argv.length)
    (h : (lowerStr (argv.getD 1 "") = "responders" ∧ argv.length ≤ 3) ∨
      (lowerStr (argv.getD 1 "") ≠ "analyzers" ∧ lowerStr (argv.getD 1 "") ≠ "responders")) :
    mainFn net api_url argv = { output := invalidLines, requested := [], result := [] } ∧
      invalidLines.length = 3 := by
  have hlen : ¬ argv.length < 2 := by omega
  refine ⟨?_, rfl⟩
  rcases h with ⟨ha, hl⟩ | ⟨ha, hr⟩
  · have hand : ¬ (lowerStr (argv.getD 1 "") = "responders" ∧ 3 < argv.length) := by
      rintro ⟨-, hgt⟩
      omega
    have hana : lowerStr (argv.getD 1 "") ≠ "analyzers" := by
      rw [ha]
      decide
    simp only [mainFn]
    rw [if_neg hlen, if_neg hana, if_neg hand]
  · have hand : ¬ (lowerStr (argv.getD 1 "") = "responders" ∧ 3 < argv.length) :=
      fun hc => hr hc.1
    simp only [mainFn]
    rw [if_neg hlen, if_neg ha, if_neg hand]

/-- Witness for C9 (amended): `responders` with one further argument. -/
theorem C9_witness :
    mainFn downNet "u" ["prog", "responders", "observable"] =
      { output := invalidLines, requested := [], result := [] } :=
  (C9_usage_no_http downNet "u" ["prog", "responders", "observable"] (by decide)
    (Or.inl ⟨by decide, by decide⟩)).1

/-- C10: the groups are listed in order of first appearance of each
`cortexId` in the input: the sequence of group keys — hence of printed
group headers, in both display routines — equals the deduplicated
sequence of `cortexId` values (missing ones replaced by `Unknown`) in
input order. -/
theorem C10_group_first_appearance_order (rs : List Record) :
    (groupByCortexId rs).map Prod.fst = firstKeys rs ∧
      ((groupByCortexId rs).map analyzersGroupLines).map List.head? =
        (firstKeys rs).map (fun k => some ("\n== Cortex Instance: " ++ k ++ " ==")) ∧
      ((groupByCortexId rs).map respondersGroupLines).map List.head? =
        (firstKeys rs).map (fun k => some ("\nCortex Instance: " ++ k)) := by
  have h := map_fst_groupByCortexId rs
  refine ⟨h, ?_, ?_⟩
  · rw [← h]
    simp [analyzersGroupLines, List.map_map]
  · rw [← h]
    simp [respondersGroupLines, List.map_map]

end ListRespondersAnalyzers
